import Mathlib

/-!
Shallow embedding of the BlueZ GATT D-Bus client (`src/gatt-client.c`) and the
`btgatt-server` tool (`tools/btgatt-server.c`), with theorems checking the
natural-language specification against the code.

Machine integers are modelled as `Nat` (with explicit `% 2 ^ w` where a C
conversion truncates), byte buffers as `List Nat`, and NULL-able pointers as
`Option`.  Fallible allocation (`malloc`/`realloc`) is modelled by an explicit
boolean input saying whether the allocation succeeds.
-/

namespace BlueZGatt

/-! ### ATT error codes

The numeric values come from the specification's ATT error table (the header
`src/shared/att.h` defining `BT_ATT_ERROR_*` is not part of this snapshot);
`0x0C` for insufficient encryption key size is the standard ATT assignment. -/

def BT_ATT_ERROR_INVALID_HANDLE : Nat := 0x01
def BT_ATT_ERROR_READ_NOT_PERMITTED : Nat := 0x02
def BT_ATT_ERROR_WRITE_NOT_PERMITTED : Nat := 0x03
def BT_ATT_ERROR_AUTHENTICATION : Nat := 0x05
def BT_ATT_ERROR_REQUEST_NOT_SUPPORTED : Nat := 0x06
def BT_ATT_ERROR_INVALID_OFFSET : Nat := 0x07
def BT_ATT_ERROR_AUTHORIZATION : Nat := 0x08
def BT_ATT_ERROR_ATTRIBUTE_NOT_FOUND : Nat := 0x0A
def BT_ATT_ERROR_INSUFFICIENT_ENCRYPTION_KEY_SIZE : Nat := 0x0C
def BT_ATT_ERROR_INVALID_ATTRIBUTE_VALUE_LEN : Nat := 0x0D
def BT_ATT_ERROR_UNLIKELY : Nat := 0x0E
def BT_ATT_ERROR_INSUFFICIENT_ENCRYPTION : Nat := 0x0F
def BT_ATT_ERROR_INSUFFICIENT_RESOURCES : Nat := 0x11

/-! ### Byte-buffer primitives shared by several callbacks -/

/-- Models C `realloc(old, new_len)` followed by the copy the C library itself
performs: the first `min new_len old.length` bytes are preserved; bytes past
the old length are indeterminate in C and modelled as `0` here (every caller
in this code overwrites them before they are observed). -/
def realloc_copy (old : List Nat) (new_len : Nat) : List Nat :=
  old.take (min new_len old.length) ++
    List.replicate (new_len - min new_len old.length) 0

/-- Models `memcpy(dst + offset, value, value.length)` on a buffer `dst`. -/
def mem_store (dst : List Nat) (offset : Nat) (value : List Nat) : List Nat :=
  dst.take offset ++ value ++ dst.drop (offset + value.length)

/-! ### `tools/btgatt-server.c`: Service Changed CCC write callback -/

/-- Embeds `gatt_svc_chngd_ccc_write_cb` (tools/btgatt-server.c:226-259).
`value` is the written buffer (`none` models a NULL pointer), `offset` the
write offset, `svc_chngd_enabled` the server flag before the call.  The result
is the ATT error code handed to `gatt_db_attribute_write_result` (0 means
success) paired with the flag after the call. -/
def gatt_svc_chngd_ccc_write_cb (offset : Nat) (value : Option (List Nat))
    (svc_chngd_enabled : Bool) : Nat × Bool :=
  match value with
  | none => (BT_ATT_ERROR_INVALID_ATTRIBUTE_VALUE_LEN, svc_chngd_enabled)
  | some v =>
    if v.length ≠ 2 then
      (BT_ATT_ERROR_INVALID_ATTRIBUTE_VALUE_LEN, svc_chngd_enabled)
    else if offset ≠ 0 then
      (BT_ATT_ERROR_INVALID_OFFSET, svc_chngd_enabled)
    else if v.headI = 0x00 then (0, false)
    else if v.headI = 0x02 then (0, true)
    else (0x80, svc_chngd_enabled)

/-! ### `tools/btgatt-server.c`: GAP Device Name read/write callbacks -/

/-- Embeds `gap_device_name_read_cb` (tools/btgatt-server.c:120-144):
given the stored name and the requested offset, returns the ATT error code and
the bytes handed back to `gatt_db_attribute_read_result` (on the error path the
C code passes a NULL value pointer, modelled as `[]`). -/
def gap_device_name_read_cb (device_name : List Nat) (offset : Nat) :
    Nat × List Nat :=
  if offset > device_name.length then (BT_ATT_ERROR_INVALID_OFFSET, [])
  else (0, device_name.drop offset)

/-- Embeds `gap_device_name_write_cb` (tools/btgatt-server.c:146-183):
`alloc_ok` models whether the `realloc` call (made only when
`offset + value.length ≠ device_name.length`) succeeds.  Returns the ATT error
code and the stored name after the call. -/
def gap_device_name_write_cb (device_name : List Nat) (offset : Nat)
    (value : List Nat) (alloc_ok : Bool) : Nat × List Nat :=
  if offset > device_name.length then
    (BT_ATT_ERROR_INVALID_OFFSET, device_name)
  else if offset + value.length ≠ device_name.length then
    if alloc_ok then
      (0, mem_store (realloc_copy device_name (offset + value.length))
            offset value)
    else (BT_ATT_ERROR_INSUFFICIENT_RESOURCES, device_name)
  else (0, mem_store device_name offset value)

end BlueZGatt

namespace BlueZGatt

/-! ### Theorems for the server-side claims -/

/-- C1 counterexample: a 2-byte write at offset 0 with first byte `0x01`
(enable notify) does NOT complete without error: the callback completes with
application error code `0x80`. -/
theorem ccc_write_notify_not_accepted :
    (gatt_svc_chngd_ccc_write_cb 0 (some [0x01, 0x00]) false).1 ≠ 0 := by
  decide

/-- C1 (amended): for every 2-byte write at offset 0, first byte `0x02` sets
the indication-enabled flag and completes without error, first byte `0x00`
clears it and completes without error, and first byte `0x01` (notify)
completes with application error `0x80` leaving the flag unchanged. -/
theorem ccc_write_accepts (b : Nat) (enabled : Bool) :
    gatt_svc_chngd_ccc_write_cb 0 (some [0x02, b]) enabled = (0, true) ∧
    gatt_svc_chngd_ccc_write_cb 0 (some [0x00, b]) enabled = (0, false) ∧
    gatt_svc_chngd_ccc_write_cb 0 (some [0x01, b]) enabled =
      (0x80, enabled) := by
  refine ⟨?_, ?_, ?_⟩ <;> rfl

/-- C2: the Service Changed CCC write callback completes with
`INVALID_ATTRIBUTE_VALUE_LEN` (0x0D) when the value is absent or not 2 bytes,
with `INVALID_OFFSET` (0x07) when the value is 2 bytes but the offset is
nonzero, and every completion with a nonzero error code leaves the
indication-enabled flag unchanged. -/
theorem ccc_write_error_paths (offset : Nat) (value : Option (List Nat))
    (enabled : Bool) :
    (gatt_svc_chngd_ccc_write_cb offset none enabled =
      (BT_ATT_ERROR_INVALID_ATTRIBUTE_VALUE_LEN, enabled)) ∧
    (∀ v, value = some v → v.length ≠ 2 →
      gatt_svc_chngd_ccc_write_cb offset value enabled =
        (BT_ATT_ERROR_INVALID_ATTRIBUTE_VALUE_LEN, enabled)) ∧
    (∀ v, value = some v → v.length = 2 → offset ≠ 0 →
      gatt_svc_chngd_ccc_write_cb offset value enabled =
        (BT_ATT_ERROR_INVALID_OFFSET, enabled)) ∧
    ((gatt_svc_chngd_ccc_write_cb offset value enabled).1 ≠ 0 →
      (gatt_svc_chngd_ccc_write_cb offset value enabled).2 = enabled) := by
  refine ⟨rfl, ?_, ?_, ?_⟩
  · rintro v rfl hv
    simp [gatt_svc_chngd_ccc_write_cb, hv]
  · rintro v rfl hv hoff
    simp [gatt_svc_chngd_ccc_write_cb, hv, hoff]
  · cases value with
    | none => intro _; rfl
    | some v =>
      simp only [gatt_svc_chngd_ccc_write_cb]
      split_ifs <;> simp

/-- Witness for C2 at concrete inputs. -/
theorem ccc_write_error_paths_witness :
    gatt_svc_chngd_ccc_write_cb 0 (some [0x05]) true =
      (BT_ATT_ERROR_INVALID_ATTRIBUTE_VALUE_LEN, true) ∧
    gatt_svc_chngd_ccc_write_cb 1 (some [0x00, 0x00]) true =
      (BT_ATT_ERROR_INVALID_OFFSET, true) :=
  ⟨(ccc_write_error_paths 0 (some [0x05]) true).2.1 [0x05] rfl (by decide),
   (ccc_write_error_paths 1 (some [0x00, 0x00]) true).2.2.1 [0x00, 0x00] rfl
     (by decide) (by decide)⟩

/-- C3: the GAP Device Name read callback succeeds for `offset ≤ L`, returning
exactly the stored bytes from `offset` to the end (length `L - offset`, empty
at `offset = L`), and completes with `INVALID_OFFSET` for `offset > L`. -/
theorem gap_name_read_correct (device_name : List Nat) (offset : Nat) :
    (offset ≤ device_name.length →
      (gap_device_name_read_cb device_name offset).1 = 0 ∧
      (gap_device_name_read_cb device_name offset).2.length =
        device_name.length - offset ∧
      ∀ i, ((gap_device_name_read_cb device_name offset).2)[i]? =
        device_name[offset + i]?) ∧
    (offset > device_name.length →
      (gap_device_name_read_cb device_name offset).1 =
        BT_ATT_ERROR_INVALID_OFFSET) := by
  constructor
  · intro h
    have hnot : ¬ offset > device_name.length := not_lt.mpr h
    refine ⟨?_, ?_, ?_⟩
    · simp [gap_device_name_read_cb, hnot]
    · simp [gap_device_name_read_cb, hnot]
    · intro i
      simp [gap_device_name_read_cb, hnot, List.getElem?_drop]
  · intro h
    simp [gap_device_name_read_cb, h]

/-- Witness for C3 at concrete inputs. -/
theorem gap_name_read_correct_witness :
    (gap_device_name_read_cb [10, 20, 30] 1).1 = 0 ∧
    (gap_device_name_read_cb [10, 20, 30] 1).2.length = 2 ∧
    (gap_device_name_read_cb [10, 20, 30] 1).2[1]? = some 30 ∧
    (gap_device_name_read_cb [10, 20, 30] 4).1 =
      BT_ATT_ERROR_INVALID_OFFSET :=
  ⟨((gap_name_read_correct [10, 20, 30] 1).1 (by decide)).1,
   ((gap_name_read_correct [10, 20, 30] 1).1 (by decide)).2.1,
   ((gap_name_read_correct [10, 20, 30] 1).1 (by decide)).2.2 1,
   (gap_name_read_correct [10, 20, 30] 4).2 (by decide)⟩

theorem mem_store_eq_of_len (dn : List Nat) (o : Nat) (v : List Nat)
    (h : o + v.length = dn.length) :
    mem_store dn o v = dn.take o ++ v := by
  unfold mem_store
  rw [h, List.drop_length, List.append_nil]

theorem realloc_copy_length (dn : List Nat) (n : Nat) :
    (realloc_copy dn n).length = n := by
  unfold realloc_copy
  simp [List.length_take]

theorem mem_store_realloc (dn : List Nat) (o : Nat) (v : List Nat)
    (h : o ≤ dn.length) :
    mem_store (realloc_copy dn (o + v.length)) o v = dn.take o ++ v := by
  have hm : o ≤ min (o + v.length) dn.length :=
    le_min (Nat.le_add_right _ _) h
  unfold mem_store
  rw [List.drop_eq_nil_of_le (by rw [realloc_copy_length]), List.append_nil]
  unfold realloc_copy
  rw [List.take_append_of_le_length
    (by simpa [List.length_take, Nat.min_eq_left (min_le_right _ _)]
      using hm)]
  rw [List.take_take, Nat.min_eq_left hm]

theorem gap_name_write_success (device_name : List Nat) (offset : Nat)
    (value : List Nat) (alloc_ok : Bool)
    (h : offset ≤ device_name.length)
    (hcase : alloc_ok = true ∨ offset + value.length = device_name.length) :
    gap_device_name_write_cb device_name offset value alloc_ok =
      (0, device_name.take offset ++ value) := by
  have hnot : ¬ offset > device_name.length := not_lt.mpr h
  unfold gap_device_name_write_cb
  rw [if_neg hnot]
  by_cases hne : offset + value.length = device_name.length
  · rw [if_neg (not_not_intro hne), mem_store_eq_of_len _ _ _ hne]
  · have hok : alloc_ok = true := hcase.resolve_right hne
    rw [if_pos hne, hok, if_pos rfl, mem_store_realloc _ _ _ h]

/-- C4: the GAP Device Name write callback completes with `INVALID_OFFSET`
leaving the name unchanged when `offset > L`; with `INSUFFICIENT_RESOURCES`
leaving the name unchanged when reallocation is needed and fails; and
otherwise succeeds, after which the stored name is the old name's first
`offset` bytes followed by the written value (so it has length
`offset + value.length`, its first `min offset L = offset` bytes are the old
name's, and its bytes from `offset` on are the written value). -/
theorem gap_name_write_correct (device_name : List Nat) (offset : Nat)
    (value : List Nat) (alloc_ok : Bool) :
    (offset > device_name.length →
      gap_device_name_write_cb device_name offset value alloc_ok =
        (BT_ATT_ERROR_INVALID_OFFSET, device_name)) ∧
    (offset ≤ device_name.length → alloc_ok = false →
      offset + value.length ≠ device_name.length →
      gap_device_name_write_cb device_name offset value alloc_ok =
        (BT_ATT_ERROR_INSUFFICIENT_RESOURCES, device_name)) ∧
    (offset ≤ device_name.length →
      (alloc_ok = true ∨ offset + value.length = device_name.length) →
      (gap_device_name_write_cb device_name offset value alloc_ok).1 = 0 ∧
      (gap_device_name_write_cb device_name offset value alloc_ok).2 =
        device_name.take offset ++ value ∧
      (gap_device_name_write_cb device_name offset value alloc_ok).2.length =
        offset + value.length ∧
      (gap_device_name_write_cb device_name offset value alloc_ok).2.take
        offset = device_name.take offset ∧
      (gap_device_name_write_cb device_name offset value alloc_ok).2.drop
        offset = value) := by
  refine ⟨?_, ?_, ?_⟩
  · intro h
    simp [gap_device_name_write_cb, h]
  · intro h halloc hne
    have hnot : ¬ offset > device_name.length := not_lt.mpr h
    simp [gap_device_name_write_cb, hnot, hne, halloc]
  · intro h hcase
    have hlen_take : (device_name.take offset).length = offset := by
      simp [List.length_take, Nat.min_eq_left h]
    have h2 := gap_name_write_success device_name offset value alloc_ok h
      hcase
    rw [h2]
    refine ⟨rfl, rfl, ?_, ?_, ?_⟩
    · simp [hlen_take]
    · rw [List.take_append_of_le_length (by rw [hlen_take]),
        List.take_take, Nat.min_self]
    · rw [List.drop_left' hlen_take]

/-- Witness for C4 at concrete inputs. -/
theorem gap_name_write_correct_witness :
    gap_device_name_write_cb [1, 2, 3] 4 [7] true =
      (BT_ATT_ERROR_INVALID_OFFSET, [1, 2, 3]) ∧
    gap_device_name_write_cb [1, 2, 3] 1 [7] false =
      (BT_ATT_ERROR_INSUFFICIENT_RESOURCES, [1, 2, 3]) ∧
    (gap_device_name_write_cb [1, 2, 3] 1 [7, 8] true).2 = [1, 7, 8] :=
  ⟨(gap_name_write_correct [1, 2, 3] 4 [7] true).1 (by decide),
   (gap_name_write_correct [1, 2, 3] 1 [7] false).2.1 (by decide)
     (by decide) (by decide),
   ((gap_name_write_correct [1, 2, 3] 1 [7, 8] true).2.2 (by decide)
     (Or.inl rfl)).2.1⟩

end BlueZGatt

namespace BlueZGatt

/-! ### `src/gatt-client.c`: ATT error to D-Bus error translation -/

/-- The D-Bus reply produced by `create_gatt_dbus_error` and its helper
constructors (`gatt_error_*`, `btd_error_*`) in src/gatt-client.c:96-154. -/
inductive GattDbusReply where
  | read_not_permitted
  | write_not_permitted
  | invalid_value_len
  | invalid_offset
  | not_paired
  | not_authorized
  | not_supported
  | failed (msg : String)
  | att_error (code : Nat)
deriving DecidableEq

/-- Embeds `create_gatt_dbus_error` (src/gatt-client.c:126-154): the switch on
the ATT error code of a failed request. -/
def create_gatt_dbus_error (att_ecode : Nat) : GattDbusReply :=
  if att_ecode = BT_ATT_ERROR_READ_NOT_PERMITTED then .read_not_permitted
  else if att_ecode = BT_ATT_ERROR_WRITE_NOT_PERMITTED then
    .write_not_permitted
  else if att_ecode = BT_ATT_ERROR_AUTHENTICATION ∨
      att_ecode = BT_ATT_ERROR_INSUFFICIENT_ENCRYPTION ∨
      att_ecode = BT_ATT_ERROR_INSUFFICIENT_ENCRYPTION_KEY_SIZE then
    .not_paired
  else if att_ecode = BT_ATT_ERROR_INVALID_OFFSET then .invalid_offset
  else if att_ecode = BT_ATT_ERROR_INVALID_ATTRIBUTE_VALUE_LEN then
    .invalid_value_len
  else if att_ecode = BT_ATT_ERROR_AUTHORIZATION then .not_authorized
  else if att_ecode = BT_ATT_ERROR_REQUEST_NOT_SUPPORTED then .not_supported
  else if att_ecode = 0 then .failed "Operation failed"
  else .att_error att_ecode

/-! ### `src/gatt-client.c`: characteristic state and ReadValue -/

/-- The fields of `struct characteristic` (src/gatt-client.c:73-87) that the
read path manipulates: the read-long in-flight flag and the cached value
(`value_known`, `value`, `value_len`; the length is `value.length` here). -/
structure Chrc where
  in_read : Bool
  value_known : Bool
  value : List Nat
deriving DecidableEq

/-- Embeds `chrc_resize_value` (src/gatt-client.c:417-440): returns the new
buffer contents, `none` when `realloc` fails (`alloc_ok` models its success).
`realloc` is reached only when `new_size` differs from the current length and
is nonzero. -/
def chrc_resize_value (value : List Nat) (new_size : Nat) (alloc_ok : Bool) :
    Option (List Nat) :=
  if value.length = new_size then some value
  else if new_size = 0 then some []
  else if alloc_ok then some (realloc_copy value new_size) else none

/-- Outcome of one run of the read-long completion callback: the
characteristic state afterwards, whether a `Value` property-changed signal was
emitted, and the D-Bus reply (`some e` is an error reply translated from ATT
error `e`; `none` is a success reply carrying the bytes read). -/
structure ReadLongOutcome where
  chrc : Chrc
  value_changed_signal : Bool
  reply_ecode : Option Nat
deriving DecidableEq

/-- Embeds `chrc_read_long_cb` (src/gatt-client.c:442-507).  The callback
first clears `in_read`, then on failure replies with the translated ATT error;
on success it skips the cache update when the value is unchanged and already
known, otherwise resizes the cache (hiding the value when that fails) and
copies the bytes read into it, emitting a `Value` property-changed signal. -/
def chrc_read_long_cb (chrc : Chrc) (success : Bool) (att_ecode : Nat)
    (value : List Nat) (alloc_ok : Bool) : ReadLongOutcome :=
  let chrc0 : Chrc := { chrc with in_read := false }
  if success = false then
    { chrc := chrc0, value_changed_signal := false,
      reply_ecode := some att_ecode }
  else if chrc0.value_known = true ∧ chrc0.value = value then
    { chrc := chrc0, value_changed_signal := false, reply_ecode := none }
  else
    match chrc_resize_value chrc0.value value.length alloc_ok with
    | none =>
      { chrc := { chrc0 with value_known := false, value := [] },
        value_changed_signal := true, reply_ecode := none }
    | some buf =>
      let chrc1 : Chrc :=
        { chrc0 with value_known := true, value := mem_store buf 0 value }
      { chrc := chrc1, value_changed_signal := true, reply_ecode := none }

/-- Immediate D-Bus result of the `ReadValue` method handler. -/
inductive ReadValueReply where
  | in_progress_error
  | failed_error (msg : String)
  | pending
deriving DecidableEq

/-- One step of `characteristic_read_value` (src/gatt-client.c:509-536):
the reply returned to D-Bus, the `in_read` flag afterwards, whether
`bt_gatt_client_read_long_value` was called, and whether that call succeeded
(returned a nonzero request id). -/
structure ReadValueStep where
  reply : ReadValueReply
  in_read : Bool
  att_read_called : Bool
  att_read_started : Bool
deriving DecidableEq

/-- Embeds `characteristic_read_value` (src/gatt-client.c:509-536).
`in_read` is the flag before the call; `alloc_ok` models `new0` success and
`send_ok` the return value of `bt_gatt_client_read_long_value`. -/
def characteristic_read_value (in_read : Bool) (alloc_ok : Bool)
    (send_ok : Bool) : ReadValueStep :=
  if in_read then
    { reply := .in_progress_error, in_read := true,
      att_read_called := false, att_read_started := false }
  else if alloc_ok = false then
    { reply := .failed_error "Failed to initialize request", in_read := false,
      att_read_called := false, att_read_started := false }
  else if send_ok then
    { reply := .pending, in_read := true,
      att_read_called := true, att_read_started := true }
  else
    { reply := .failed_error "Failed to send read request", in_read := false,
      att_read_called := true, att_read_started := false }

/-- Embeds `characteristic_property_get_value` (src/gatt-client.c:312-331):
the bytes appended to the `Value` property reply. -/
def characteristic_property_get_value (chrc : Chrc) : List Nat :=
  if chrc.value_known then chrc.value else []

/-- Embeds `characteristic_property_value_exists` (src/gatt-client.c:333-340). -/
def characteristic_property_value_exists (chrc : Chrc) : Bool :=
  chrc.value_known

end BlueZGatt

namespace BlueZGatt

/-! ### Theorems for the error-mapping and read-path claims -/

/-- C6: the ATT-error-to-D-Bus-error translation follows the fixed mapping of
`create_gatt_dbus_error`, and every code outside the explicitly mapped ones
(including 0, which maps to a generic Failed error) yields the generic error
carrying the code; the function is total, so some reply is returned for every
8-bit code. -/
theorem att_error_mapping (c : Nat) :
    create_gatt_dbus_error BT_ATT_ERROR_READ_NOT_PERMITTED =
      .read_not_permitted ∧
    create_gatt_dbus_error BT_ATT_ERROR_WRITE_NOT_PERMITTED =
      .write_not_permitted ∧
    create_gatt_dbus_error BT_ATT_ERROR_AUTHENTICATION = .not_paired ∧
    create_gatt_dbus_error BT_ATT_ERROR_INSUFFICIENT_ENCRYPTION =
      .not_paired ∧
    create_gatt_dbus_error BT_ATT_ERROR_INSUFFICIENT_ENCRYPTION_KEY_SIZE =
      .not_paired ∧
    create_gatt_dbus_error BT_ATT_ERROR_INVALID_OFFSET = .invalid_offset ∧
    create_gatt_dbus_error BT_ATT_ERROR_INVALID_ATTRIBUTE_VALUE_LEN =
      .invalid_value_len ∧
    create_gatt_dbus_error BT_ATT_ERROR_AUTHORIZATION = .not_authorized ∧
    create_gatt_dbus_error BT_ATT_ERROR_REQUEST_NOT_SUPPORTED =
      .not_supported ∧
    create_gatt_dbus_error 0 = .failed "Operation failed" ∧
    (c ≠ 0 → c ≠ 0x02 → c ≠ 0x03 → c ≠ 0x05 → c ≠ 0x06 → c ≠ 0x07 →
      c ≠ 0x08 → c ≠ 0x0C → c ≠ 0x0D → c ≠ 0x0F →
      create_gatt_dbus_error c = .att_error c) := by
  refine ⟨rfl, rfl, rfl, rfl, rfl, rfl, rfl, rfl, rfl, rfl, ?_⟩
  intro h0 h2 h3 h5 h6 h7 h8 hC hD hF
  simp [create_gatt_dbus_error, BT_ATT_ERROR_READ_NOT_PERMITTED,
    BT_ATT_ERROR_WRITE_NOT_PERMITTED, BT_ATT_ERROR_AUTHENTICATION,
    BT_ATT_ERROR_INSUFFICIENT_ENCRYPTION,
    BT_ATT_ERROR_INSUFFICIENT_ENCRYPTION_KEY_SIZE,
    BT_ATT_ERROR_INVALID_OFFSET, BT_ATT_ERROR_INVALID_ATTRIBUTE_VALUE_LEN,
    BT_ATT_ERROR_AUTHORIZATION, BT_ATT_ERROR_REQUEST_NOT_SUPPORTED,
    h0, h2, h3, h5, h6, h7, h8, hC, hD, hF]

/-- Witness for C6 at the concrete unmapped code 0xFF. -/
theorem att_error_mapping_witness :
    create_gatt_dbus_error 0xFF = .att_error 0xFF :=
  (att_error_mapping 0xFF).2.2.2.2.2.2.2.2.2.2 (by decide) (by decide)
    (by decide) (by decide) (by decide) (by decide) (by decide) (by decide)
    (by decide) (by decide)

/-- C5: a `ReadValue` call on a characteristic whose `in_read` flag is set is
rejected with an InProgress error without calling
`bt_gatt_client_read_long_value`; after any call the flag is set exactly when
a read-long was successfully started by this call or was already in flight;
and the read-long completion callback always clears the flag. -/
theorem read_value_single_flight (in_read alloc_ok send_ok : Bool)
    (chrc : Chrc) (success : Bool) (att_ecode : Nat) (value : List Nat)
    (cb_alloc_ok : Bool) :
    (in_read = true →
      characteristic_read_value in_read alloc_ok send_ok =
        { reply := .in_progress_error, in_read := true,
          att_read_called := false, att_read_started := false }) ∧
    ((characteristic_read_value in_read alloc_ok send_ok).in_read =
      ((characteristic_read_value in_read alloc_ok
          send_ok).att_read_started || in_read)) ∧
    ((chrc_read_long_cb chrc success att_ecode value
        cb_alloc_ok).chrc.in_read = false) := by
  refine ⟨?_, ?_, ?_⟩
  · rintro rfl; rfl
  · cases in_read <;> cases alloc_ok <;> cases send_ok <;> rfl
  · cases success with
    | false => rfl
    | true =>
      simp only [chrc_read_long_cb]
      split
      · rfl
      · split
        · rfl
        · split <;> rfl

/-- Witness for C5: a call with the flag already set is rejected. -/
theorem read_value_single_flight_witness :
    characteristic_read_value true true true =
      { reply := .in_progress_error, in_read := true,
        att_read_called := false, att_read_started := false } :=
  (read_value_single_flight true true true ⟨true, false, []⟩ false 0 []
    false).1 rfl

theorem chrc_resize_value_some_length (v : List Nat) (n : Nat) (ok : Bool)
    (buf : List Nat) (h : chrc_resize_value v n ok = some buf) :
    buf.length = n := by
  unfold chrc_resize_value at h
  split_ifs at h with h1 h2 h3
  · obtain rfl : v = buf := Option.some.inj h
    exact h1
  · obtain rfl : ([] : List Nat) = buf := Option.some.inj h
    exact h2.symm
  · obtain rfl : realloc_copy v n = buf := Option.some.inj h
    exact realloc_copy_length v n

theorem chrc_resize_value_none_iff (v : List Nat) (n : Nat) (ok : Bool)
    (h : chrc_resize_value v n ok = none) :
    v.length ≠ n ∧ n ≠ 0 ∧ ok = false := by
  unfold chrc_resize_value at h
  split_ifs at h with h1 h2 h3
  simp_all

theorem mem_store_zero_full (buf v : List Nat) (h : buf.length = v.length) :
    mem_store buf 0 v = v := by
  unfold mem_store
  rw [List.take_zero, List.drop_eq_nil_of_le (by omega), List.append_nil,
    List.nil_append]

end BlueZGatt

namespace BlueZGatt

/-- C10 (amended): after the read-long completion callback runs with success,
either `value_known` holds and the cache holds exactly the bytes just read, or
— only when resizing the cache buffer to a different nonzero length fails —
`value_known` is false and the cache is empty; and the D-Bus `Value` property
exists exactly when `value_known`, in which case it reports the cached
bytes. -/
theorem cache_not_stale (chrc : Chrc) (att_ecode : Nat) (value : List Nat)
    (alloc_ok : Bool) :
    (((chrc_read_long_cb chrc true att_ecode value alloc_ok).chrc.value_known
        = true ∧
      (chrc_read_long_cb chrc true att_ecode value alloc_ok).chrc.value =
        value) ∨
     (chrc.value.length ≠ value.length ∧ value.length ≠ 0 ∧
      alloc_ok = false ∧
      (chrc_read_long_cb chrc true att_ecode value alloc_ok).chrc.value_known
        = false ∧
      (chrc_read_long_cb chrc true att_ecode value alloc_ok).chrc.value =
        [])) ∧
    (characteristic_property_value_exists chrc = chrc.value_known) ∧
    (chrc.value_known = true →
      characteristic_property_get_value chrc = chrc.value) := by
  refine ⟨?_, rfl, ?_⟩
  · by_cases hskip : chrc.value_known = true ∧ chrc.value = value
    · left
      constructor <;> simp [chrc_read_long_cb, hskip]
    · rcases hres : chrc_resize_value chrc.value value.length alloc_ok
        with _ | buf
      · right
        have hn := chrc_resize_value_none_iff _ _ _ hres
        refine ⟨hn.1, hn.2.1, hn.2.2, ?_, ?_⟩ <;>
          simp [chrc_read_long_cb, hskip, hres]
      · left
        have hlen := chrc_resize_value_some_length _ _ _ _ hres
        constructor <;>
          simp [chrc_read_long_cb, hskip, hres,
            mem_store_zero_full buf value hlen]
  · intro h
    simp [characteristic_property_get_value, h]

/-- Witness for C10 at a concrete characteristic with a known value. -/
theorem cache_not_stale_witness :
    characteristic_property_get_value ⟨false, true, [4, 2]⟩ = [4, 2] :=
  (cache_not_stale ⟨false, true, [4, 2]⟩ 0 [] true).2.2 rfl

/-- C10 counterexample: with a 5-byte cached value, a successful read of a
3-byte value whose `realloc` fails hides the value even though the buffer was
being shrunk, not grown, so the claim's "only when growing the cache buffer
fails" qualification is false at this input. -/
theorem cache_grow_only_counterexample :
    ¬ (((chrc_read_long_cb ⟨false, true, [1, 2, 3, 4, 5]⟩ true 0 [9, 9, 9]
          false).chrc.value_known = true ∧
        (chrc_read_long_cb ⟨false, true, [1, 2, 3, 4, 5]⟩ true 0 [9, 9, 9]
          false).chrc.value = [9, 9, 9]) ∨
       (([9, 9, 9] : List Nat).length > ([1, 2, 3, 4, 5] : List Nat).length ∧
        (chrc_read_long_cb ⟨false, true, [1, 2, 3, 4, 5]⟩ true 0 [9, 9, 9]
          false).chrc.value_known = false ∧
        (chrc_read_long_cb ⟨false, true, [1, 2, 3, 4, 5]⟩ true 0 [9, 9, 9]
          false).chrc.value = [])) := by
  decide

end BlueZGatt

namespace BlueZGatt

/-! ### `src/gatt-client.c`: service object export and teardown -/

/-- Descriptor data enumerated from the shared gatt client
(`bt_gatt_descriptor_t`). -/
structure DescData where
  handle : Nat
deriving DecidableEq

/-- Characteristic data (`bt_gatt_characteristic_t`). -/
structure ChrcData where
  start_handle : Nat
  value_handle : Nat
  props : Nat
  descs : List DescData
deriving DecidableEq

/-- Service data (`bt_gatt_service_t`). -/
structure SvcData where
  primary : Bool
  start_handle : Nat
  end_handle : Nat
  chrcs : List ChrcData
deriving DecidableEq

/-- A D-Bus object path of an exported GATT object: the string paths
`.../serviceXXXX[/charXXXX[/descXXXX]]` are keyed by the handles that form
them. -/
inductive ObjPath where
  | svc (s : Nat)
  | chrc (s c : Nat)
  | desc (s c d : Nat)
deriving DecidableEq

/-- Embeds `struct descriptor` (src/gatt-client.c:89-94). -/
structure DescObj where
  handle : Nat
  path : ObjPath
deriving DecidableEq

/-- Embeds the export-lifecycle fields of `struct characteristic`. -/
structure ChrcObj where
  handle : Nat
  value_handle : Nat
  props : Nat
  path : ObjPath
  descs : List DescObj
deriving DecidableEq

/-- Embeds `struct service` (src/gatt-client.c:62-71). -/
structure ServiceObj where
  primary : Bool
  start_handle : Nat
  end_handle : Nat
  path : ObjPath
  chrcs : List ChrcObj
  chrcs_ready : Bool
deriving DecidableEq

/-- Embeds `struct btd_gatt_client` (src/gatt-client.c:53-60): the exported
service queue and the referenced gatt instance (`none` when unset); a gatt
instance is modelled by the service data it enumerates. -/
structure ClientState where
  services : List ServiceObj
  gatt : Option (List SvcData)
deriving DecidableEq

/-- Embeds `descriptor_create` (src/gatt-client.c:242-274); D-Bus interface
registration is assumed to succeed. -/
def descriptor_create (s c : Nat) (d : DescData) : DescObj :=
  { handle := d.handle, path := .desc s c d.handle }

/-- Embeds `characteristic_create` with `create_descriptors`
(src/gatt-client.c:616-656 and 806-821); registration assumed successful. -/
def characteristic_create (s : Nat) (cd : ChrcData) : ChrcObj :=
  { handle := cd.start_handle, value_handle := cd.value_handle,
    props := cd.props, path := .chrc s cd.start_handle,
    descs := cd.descs.map (descriptor_create s cd.start_handle) }

/-- Embeds `service_create` with `create_characteristics`
(src/gatt-client.c:750-792 and 823-851): a fresh service object has
`chrcs_ready = false` (zero-initialized by `new0`). -/
def service_create (sd : SvcData) : ServiceObj :=
  { primary := sd.primary, start_handle := sd.start_handle,
    end_handle := sd.end_handle, path := .svc sd.start_handle,
    chrcs := sd.chrcs.map (characteristic_create sd.start_handle),
    chrcs_ready := false }

/-- The bus paths registered for one exported characteristic: its own
interface and those of its descriptors. -/
def chrc_paths (c : ChrcObj) : List ObjPath :=
  c.path :: c.descs.map DescObj.path

/-- The bus paths registered for one exported service. -/
def service_paths (s : ServiceObj) : List ObjPath :=
  s.path :: (s.chrcs.map chrc_paths).flatten

/-- Embeds `unregister_service` (src/gatt-client.c:794-804) together with the
`unregister_characteristic`/`unregister_descriptor` calls it makes: every
D-Bus interface belonging to the service is removed from the bus. -/
def unregister_service (bus : List ObjPath) (s : ServiceObj) : List ObjPath :=
  bus.filter (fun p => ¬ p ∈ service_paths s)

/-- Embeds `gatt_disconn_cb` (src/gatt-client.c:929-942): every exported
service is unregistered (`queue_remove_all` with `unregister_service` as the
destructor), the service queue becomes empty, and the gatt reference is
dropped and set to NULL. -/
def gatt_disconn_cb (st : ClientState) (bus : List ObjPath) :
    ClientState × List ObjPath :=
  ({ services := [], gatt := none },
   st.services.foldl unregister_service bus)

/-- Embeds `create_services` (src/gatt-client.c:876-910) without the trailing
`g_idle_add`: the services of the gatt instance are exported in iteration
order (creation assumed successful, so the `continue` branches are not
taken). -/
def create_services (g : List SvcData) : List ServiceObj :=
  g.map service_create

/-- Embeds `gatt_ready_cb` (src/gatt-client.c:912-919): the client takes a
reference on the new gatt instance and exports its services; the deferred
`set_chrcs_ready` idle callback is modelled as a separate later step. -/
def gatt_ready_cb (st : ClientState) (g : List SvcData)
    (bus : List ObjPath) : ClientState × List ObjPath :=
  ({ services := st.services ++ create_services g, gatt := some g },
   bus ++ ((create_services g).map service_paths).flatten)

/-- Embeds `set_chrcs_ready` with `notify_chrcs` (src/gatt-client.c:853-874):
run from the idle source added at the end of `create_services`; it does
nothing when the gatt reference is gone, otherwise it marks every service's
characteristics ready and emits a `Characteristics` property-changed signal
per service (returned as the list of signalled service paths). -/
def set_chrcs_ready (st : ClientState) : ClientState × List ObjPath :=
  match st.gatt with
  | none => (st, [])
  | some _ =>
    ({ st with services :=
        st.services.map (fun s => { s with chrcs_ready := true }) },
     st.services.map ServiceObj.path)

/-- Embeds `service_property_get_characteristics`
(src/gatt-client.c:716-731): the `Characteristics` property value. -/
def service_property_get_characteristics (s : ServiceObj) : List ObjPath :=
  if s.chrcs_ready then s.chrcs.map ChrcObj.path else []

end BlueZGatt

namespace BlueZGatt

theorem mem_foldl_unregister (l : List ServiceObj) (bus : List ObjPath)
    (p : ObjPath) (hp : p ∈ l.foldl unregister_service bus) :
    p ∈ bus ∧ ∀ s ∈ l, p ∉ service_paths s := by
  induction l generalizing bus with
  | nil => simpa using hp
  | cons s t ih =>
    simp only [List.foldl_cons] at hp
    obtain ⟨hmem, hrest⟩ := ih _ hp
    rw [unregister_service, List.mem_filter, decide_eq_true_eq] at hmem
    refine ⟨hmem.1, ?_⟩
    intro s' hs'
    rcases List.mem_cons.mp hs' with rfl | hs'
    · exact hmem.2
    · exact hrest s' hs'

/-- C7: on the bearer-disconnect callback the mirror is fully torn down —
every bus path of every exported service (including its characteristics and
descriptors) is unregistered, the service queue becomes empty and the gatt
reference is nulled; and the next bearer-ready callback rebuilds the service
objects from the new gatt instance. -/
theorem disconnect_teardown (st : ClientState) (bus : List ObjPath)
    (g : List SvcData) (bus2 : List ObjPath) :
    ((gatt_disconn_cb st bus).1.services = [] ∧
     (gatt_disconn_cb st bus).1.gatt = none) ∧
    (∀ s ∈ st.services, ∀ p ∈ service_paths s,
      p ∉ (gatt_disconn_cb st bus).2) ∧
    ((gatt_ready_cb (gatt_disconn_cb st bus).1 g bus2).1.services =
      create_services g ∧
     (gatt_ready_cb (gatt_disconn_cb st bus).1 g bus2).1.gatt = some g) := by
  refine ⟨⟨rfl, rfl⟩, ?_, ?_, rfl⟩
  · intro s hs p hp hmem
    exact (mem_foldl_unregister st.services bus p hmem).2 s hs hp
  · simp [gatt_ready_cb, gatt_disconn_cb]

/-- Witness for C7: a concrete one-service client whose service path is gone
from the bus after disconnect. -/
theorem disconnect_teardown_witness :
    ObjPath.svc 1 ∉
      (gatt_disconn_cb ⟨[service_create ⟨true, 1, 5, []⟩], some []⟩
        [ObjPath.svc 1]).2 :=
  (disconnect_teardown ⟨[service_create ⟨true, 1, 5, []⟩], some []⟩
      [ObjPath.svc 1] [] []).2.1 (service_create ⟨true, 1, 5, []⟩)
    (by decide) (ObjPath.svc 1) (by decide)

/-- C8: a freshly exported service reports an empty `Characteristics`
property (its `chrcs_ready` flag is false), and so does every service newly
added by the ready callback; the deferred `set_chrcs_ready` idle callback
does nothing when the client no longer holds a gatt instance, and otherwise
marks every service ready — only then does the property report the
characteristic paths — emitting one property-changed signal per service. -/
theorem chrcs_ready_deferred (sd : SvcData) (st : ClientState)
    (g : List SvcData) (bus : List ObjPath) :
    ((service_create sd).chrcs_ready = false ∧
     service_property_get_characteristics (service_create sd) = []) ∧
    (∀ s ∈ (gatt_ready_cb st g bus).1.services, s ∉ st.services →
      service_property_get_characteristics s = []) ∧
    (st.gatt = none → set_chrcs_ready st = (st, [])) ∧
    (st.gatt ≠ none →
      (∀ s ∈ (set_chrcs_ready st).1.services,
        s.chrcs_ready = true ∧
        service_property_get_characteristics s = s.chrcs.map ChrcObj.path) ∧
      (set_chrcs_ready st).2 = st.services.map ServiceObj.path) := by
  refine ⟨⟨rfl, rfl⟩, ?_, ?_, ?_⟩
  · intro s hs hnot
    simp only [gatt_ready_cb, List.mem_append] at hs
    rcases hs with hs | hs
    · exact absurd hs hnot
    · obtain ⟨sd', _, rfl⟩ := List.mem_map.mp hs
      rfl
  · intro hg
    simp [set_chrcs_ready, hg]
  · intro hg
    rcases hG : st.gatt with _ | gd
    · exact absurd hG hg
    · constructor
      · intro s hs
        simp only [set_chrcs_ready, hG] at hs
        obtain ⟨s0, _, rfl⟩ := List.mem_map.mp hs
        exact ⟨rfl, rfl⟩
      · simp [set_chrcs_ready, hG]

/-- Witness for C8: the idle callback is a no-op on a client whose gatt
reference is gone. -/
theorem chrcs_ready_deferred_witness :
    set_chrcs_ready ⟨[], none⟩ = (⟨[], none⟩, []) :=
  (chrcs_ready_deferred ⟨true, 1, 2, []⟩ ⟨[], none⟩ [] []).2.2.1 rfl

end BlueZGatt

namespace BlueZGatt

/-! ### `tools/btgatt-server.c`: the `notify` command's argument parsing -/

/-- C `isspace` in the default locale. -/
def is_space (c : Char) : Bool :=
  c = ' ' || c = '\t' || c = '\n' || c = '\r' ||
    c = '\x0b' || c = '\x0c'

/-- Hexadecimal digit test, as accepted by `strtol` with base 16. -/
def is_hex_digit (c : Char) : Bool :=
  c.isDigit || ('a' ≤ c && c ≤ 'f') || ('A' ≤ c && c ≤ 'F')

/-- Value of one hexadecimal digit. -/
def hex_val (c : Char) : Nat :=
  if c.isDigit then c.toNat - '0'.toNat
  else if 'a' ≤ c && c ≤ 'f' then c.toNat - 'a'.toNat + 10
  else c.toNat - 'A'.toNat + 10

/-- Consumes leading hexadecimal digits, accumulating their value. -/
def strtol_hex_digits : List Char → Nat → Nat × List Char
  | [], acc => (acc, [])
  | c :: rest, acc =>
    if is_hex_digit c then strtol_hex_digits rest (acc * 16 + hex_val c)
    else (acc, c :: rest)

/-- Embeds C `strtol(s, &endptr, 16)` (overflow saturation to `LONG_MAX` with
`errno = ERANGE` is not modelled; the value is unbounded): skips whitespace
and an optional sign, consumes a `0x`/`0X` prefix only when a hex digit
follows it, and returns the signed value with the unconsumed suffix
(`endptr`).  When no digits are consumed the suffix is the whole input, as
`strtol` then sets `endptr = nptr`. -/
def strtol16 (s : List Char) : Int × List Char :=
  let s1 := s.dropWhile is_space
  let signed : Bool × List Char :=
    match s1 with
    | '-' :: r => (true, r)
    | '+' :: r => (false, r)
    | _ => (false, s1)
  let s3 : List Char :=
    match signed.2 with
    | '0' :: 'x' :: r =>
      if (r.head?.map is_hex_digit).getD false then r else signed.2
    | '0' :: 'X' :: r =>
      if (r.head?.map is_hex_digit).getD false then r else signed.2
    | _ => signed.2
  match s3 with
  | c :: rest =>
    if is_hex_digit c then
      let parsed := strtol_hex_digits (c :: rest) 0
      ((if signed.1 then -(parsed.1 : Int) else (parsed.1 : Int)),
        parsed.2)
    else (0, s)
  | [] => (0, s)

/-- Embeds the value-byte parsing loop of `cmd_notify`
(tools/btgatt-server.c:578-592): a token must be exactly two characters and
parse fully as hex; the byte stored is the low 8 bits of the parsed long
(`ERANGE` cannot occur on a two-character token). -/
def parse_value_byte (tok : List Char) : Option Nat :=
  if tok.length ≠ 2 then none
  else
    let parsed := strtol16 tok
    if parsed.2 = tok ∨ parsed.2 ≠ [] then none
    else some (parsed.1 % 256).toNat

/-- Embeds `cmd_notify` (tools/btgatt-server.c:518-606) from the point where
the option-stripped argument vector (handle token followed by value-byte
tokens) is examined.  Returns `some (handle, value)` exactly when the command
reaches `bt_gatt_server_send_notification` or
`bt_gatt_server_send_indication` with that 16-bit handle and value, and
`none` when it prints a diagnostic and returns without sending; the
conversion of the parsed long to `uint16_t` is the C modular conversion. -/
def cmd_notify_send (args : List (List Char)) : Option (Nat × List Nat) :=
  match args with
  | [] => none
  | handle_tok :: value_toks =>
    let parsed := strtol16 handle_tok
    let handle := (parsed.1 % 65536).toNat
    if parsed.2 ≠ [] ∨ handle = 0 then none
    else if value_toks.length > 65535 then none
    else
      match value_toks.mapM parse_value_byte with
      | none => none
      | some value => some (handle, value)

/-- C9: the notify command never sends on handle 0x0000: when the handle
token leaves an unconsumed suffix (not a full hexadecimal number) or its
parsed value truncates to 0, the command returns without calling the send
functions; and whenever it does send, the handle is nonzero. -/
theorem notify_handle_guard (args : List (List Char)) (tok : List Char)
    (rest : List (List Char)) :
    (args = tok :: rest →
      ((strtol16 tok).2 ≠ [] ∨ ((strtol16 tok).1 % 65536).toNat = 0) →
      cmd_notify_send args = none) ∧
    (∀ h v, cmd_notify_send args = some (h, v) → h ≠ 0) := by
  constructor
  · rintro rfl hbad
    simp only [cmd_notify_send]
    rw [if_pos hbad]
  · intro h v hsend
    cases args with
    | nil => exact Option.noConfusion hsend
    | cons t r =>
      simp only [cmd_notify_send] at hsend
      by_cases hc : (strtol16 t).2 ≠ [] ∨ ((strtol16 t).1 % 65536).toNat = 0
      · rw [if_pos hc] at hsend
        exact Option.noConfusion hsend
      · rw [if_neg hc] at hsend
        push_neg at hc
        by_cases hl : r.length > 65535
        · rw [if_pos hl] at hsend
          exact Option.noConfusion hsend
        · rw [if_neg hl] at hsend
          rcases hm : r.mapM parse_value_byte with _ | val
          · rw [hm] at hsend
            exact Option.noConfusion hsend
          · rw [hm] at hsend
            have hpair := Option.some.inj hsend
            have hh : ((strtol16 t).1 % 65536).toNat = h :=
              congrArg Prod.fst hpair
            exact fun h0 => hc.2 (hh.trans h0)

/-- Witness for C9: the token `0x0` parses fully to handle 0 and the command
does not send. -/
theorem notify_handle_guard_witness :
    cmd_notify_send [['0', 'x', '0']] = none :=
  (notify_handle_guard [['0', 'x', '0']] ['0', 'x', '0'] []).1 rfl
    (by decide)

end BlueZGatt
